import Mathlib

/-!
Shallow embedding of the teleoperation control core of
`kits/arm/mobile_io_teleop_control.py`.

Numeric values are modelled as rationals.  The code compares Euclidean
norms `np.linalg.norm(v)` against positive thresholds; here the same
conditions are expressed by comparing the squared norm against the squared
threshold, which is equivalent for nonnegative norms and keeps every
definition executable.

The external motion layer (the vendor `hebi.arm.Arm` object, the mobile-IO
device, forward/inverse kinematics) is modelled as a record of pure oracles,
and the commands the control core issues to it are recorded as an explicit
effect list, in issue order.
-/

/-- A 3-vector of rationals, standing for the numpy 3-arrays used for
cartesian velocities, displacements and positions. -/
structure Vec3 where
  x : ℚ
  y : ℚ
  z : ℚ
deriving DecidableEq

def Vec3.zero : Vec3 := ⟨0, 0, 0⟩

def Vec3.add (a b : Vec3) : Vec3 := ⟨a.x + b.x, a.y + b.y, a.z + b.z⟩

/-- Componentwise `v * c` (vector times scalar, as written in the source). -/
def Vec3.mulScalar (v : Vec3) (c : ℚ) : Vec3 := ⟨v.x * c, v.y * c, v.z * c⟩

/-- Squared Euclidean norm of a 3-vector. -/
def Vec3.normSq (v : Vec3) : ℚ := v.x * v.x + v.y * v.y + v.z * v.z

/-- Squared Euclidean norm of a joint-space vector. -/
def listNormSq (l : List ℚ) : ℚ := (l.map (fun v => v * v)).sum

/-- Componentwise sum of two joint-space vectors (numpy `+`). -/
def listAdd (a b : List ℚ) : List ℚ := List.zipWith (fun u v => u + v) a b

/-- Componentwise `l * c` (numpy vector times scalar). -/
def listMulScalar (l : List ℚ) (c : ℚ) : List ℚ := l.map (fun v => v * c)

/-- Snapshot of the mobile-IO device as seen through the SDK accessors:
`update(timeout)` reports whether fresh feedback arrived, while
`get_button_state` / `get_axis_state` always answer from the last feedback
received (possibly stale when `update` failed). -/
structure MobileIOState where
  updateOk : Bool
  buttons : ℕ → Bool
  axes : ℕ → ℚ

/-- `ArmMobileIOInputs.TrajType` from the source. -/
inductive TrajType
  | JOINT
  | CARTESIAN
deriving DecidableEq

/-- The mutable state of an `ArmMobileIOInputs` instance.  `jointVelocityMax`
and `cartesianVelocityMax` hold the already-scaled values the constructor
computes (`joint_vel_max * (pi/0.0425)` and `cartesian_vel_max * 6`);
`mode = none` is Python's `self.mode = None`. -/
structure ArmMobileIOInputs where
  mio : MobileIOState
  numJoints : ℕ
  t : Option ℚ
  dt : ℚ
  jointVelocityMax : ℚ
  jointVelocity : List ℚ
  prevJointVelocity : List ℚ
  jointDisplacement : List ℚ
  jointDirection : ℚ
  alphaJoint : ℚ
  alphaCartesian : ℚ
  cartesianVelocityMax : ℚ
  cartesianVelocity : Vec3
  prevCartesianVelocity : Vec3
  cartesianDisplacement : Vec3
  mode : Option TrajType
  locked : Bool
  active : Bool
  gripperClosed : Bool
  maxAbsX : ℚ
  maxAbsY : ℚ
  minZ : ℚ
  maxZ : ℚ

/-- `ArmMobileIOInputs.clear_input`: zero the raw joint and cartesian
velocities. -/
def ArmMobileIOInputs.clear_input (s : ArmMobileIOInputs) : ArmMobileIOInputs :=
  { s with jointVelocity := List.replicate s.numJoints 0,
           cartesianVelocity := Vec3.zero }

/-- Squared cartesian activity threshold: the source compares the norm
against `1e-3`. -/
def cartesianActivityThresholdSq : ℚ := (1/1000) * (1/1000)

/-- Squared joint activity threshold: the source compares the norm
against `1e-2`. -/
def jointActivityThresholdSq : ℚ := (1/100) * (1/100)

/-- Lines 80-98 of `parse_mobile_feedback`: dt bookkeeping, the
(ineffective-when-overwritten) clear on a failed device read, raw joint and
cartesian velocity readout, and exponential smoothing into
`prev_joint_velocity` / `prev_cartesian_velocity`. -/
def ArmMobileIOInputs.parse_pre (s : ArmMobileIOInputs) (time : ℚ) :
    ArmMobileIOInputs :=
  let dt := match s.t with
    | some t0 => time - t0
    | none => s.dt
  let s1 := { s with dt := dt, t := some time }
  let s2 := if s1.mio.updateOk then s1 else s1.clear_input
  let jdir : ℚ := -((if s2.mio.buttons 7 then (1 : ℚ) else 0) * 2 - 1)
  let jv := s2.jointVelocity.mapIdx (fun i v =>
    if 2 ≤ i then
      (if s2.mio.buttons (i - 1) then (1 : ℚ) else 0) * s2.jointVelocityMax * jdir
    else v)
  let cv : Vec3 :=
    ⟨ s2.mio.axes 8 * s2.cartesianVelocityMax,
      -(s2.mio.axes 7) * s2.cartesianVelocityMax,
      s2.mio.axes 5 * s2.cartesianVelocityMax ⟩
  let pcv := (cv.mulScalar s2.alphaCartesian).add
    (s2.prevCartesianVelocity.mulScalar (1 - s2.alphaCartesian))
  let pjv := List.zipWith (fun a b => a * s2.alphaJoint + b * (1 - s2.alphaJoint))
    jv s2.prevJointVelocity
  { s2 with jointDirection := jdir, jointVelocity := jv,
            cartesianVelocity := cv,
            prevCartesianVelocity := pcv, prevJointVelocity := pjv }

/-- Lines 99-108 of `parse_mobile_feedback`: mode arbitration.  Cartesian
activity is tested first; joint activity only when the cartesian channel is
at or below its threshold; otherwise both displacements are zeroed and the
mode is cleared. -/
def ArmMobileIOInputs.modeArbitrate (s : ArmMobileIOInputs) :
    ArmMobileIOInputs :=
  if s.prevCartesianVelocity.normSq > cartesianActivityThresholdSq then
    { s with cartesianDisplacement := s.prevCartesianVelocity.mulScalar s.dt,
             mode := some TrajType.CARTESIAN }
  else if listNormSq s.prevJointVelocity > jointActivityThresholdSq then
    { s with jointDisplacement := listMulScalar s.prevJointVelocity s.dt,
             mode := some TrajType.JOINT }
  else
    { s with jointDisplacement := List.replicate s.numJoints 0,
             cartesianDisplacement := Vec3.zero,
             mode := none }

/-- Lines 80-108 of `parse_mobile_feedback`: everything before the three
button reads that go through the module-global `m`. -/
def ArmMobileIOInputs.parse_core (s : ArmMobileIOInputs) (time : ℚ) :
    ArmMobileIOInputs :=
  (s.parse_pre time).modeArbitrate

/-- Lines 110-112 of `parse_mobile_feedback`: `locked`, `active` and
`gripper_closed` are read from the module-global `m` (here `gm`), not from
the instance's own `self.mio`. -/
def ArmMobileIOInputs.parse_with_global (s : ArmMobileIOInputs)
    (gm : MobileIOState) (time : ℚ) : ArmMobileIOInputs :=
  { s.parse_core time with
      locked := gm.buttons 6, active := gm.buttons 5,
      gripperClosed := gm.buttons 8 }

/-- `parse_mobile_feedback`, with the module-global `m` made explicit as an
optional ambient device.  When no global `m` is bound, Python raises
`NameError` at line 110, after the mutations of lines 80-108 have already
been applied to `self`; the error payload carries that partially updated
state. -/
def ArmMobileIOInputs.parse_mobile_feedback (s : ArmMobileIOInputs)
    (globalM : Option MobileIOState) (time : ℚ) :
    Except ArmMobileIOInputs ArmMobileIOInputs :=
  match globalM with
  | none => Except.error (s.parse_core time)
  | some gm => Except.ok (s.parse_with_global gm time)

/-- `ArmControlState` from the source. -/
inductive ArmControlState
  | STARTUP
  | HOMING
  | TELEOP
  | DISCONNECTED
  | EXIT
deriving DecidableEq

/-- A 3x3 orientation matrix as produced by `FK` and consumed by
`ik_target_xyz_so3`; its entries never influence the control logic
modelled here, they are only passed through. -/
abbrev Rot : Type := List (List ℚ)

/-- `hebi.arm.Goal`: the waypoints added so far, each a joint-position
vector with an optional duration (`add_waypoint(position=...)` adds a
waypoint with no duration). -/
structure Goal where
  size : ℕ
  waypoints : List (List ℚ × Option ℚ)
deriving DecidableEq

/-- The external motion layer (`hebi.arm.Arm` plus its gripper), modelled as
pure per-tick oracles: `positionCommand` is what
`last_feedback.get_position_command` fills in, `fk` is `Arm.FK`, `ik` is
`Arm.ik_target_xyz_so3` (which may fail with no IK solution), `endEffector`
is the gripper's `state` float when a gripper is attached. -/
structure Arm where
  size : ℕ
  atGoal : Bool
  positionCommand : List ℚ
  fk : List ℚ → Vec3 × Rot
  ik : List ℚ → Vec3 → Rot → Except Unit (List ℚ)
  endEffector : Option ℚ

/-- Commands the control core issues to the external layer, in issue
order.  `cancelGoal` is part of the external interface but, as the theorems
below establish, is never issued by this code. -/
inductive ArmCommand
  | armUpdate
  | armSend
  | setGoal (g : Goal)
  | cancelGoal
  | gripperClose
  | gripperOpen
deriving DecidableEq

/-- `np.clip(x, lo, hi)`. -/
def clip (x lo hi : ℚ) : ℚ := min (max x lo) hi

/-- Lines 218-221 of `compute_arm_goal`: clamp the cartesian target against
the workspace limits carried by the input sample. -/
def applyLimits (v : Vec3) (inp : ArmMobileIOInputs) : Vec3 :=
  ⟨ clip v.x (-inp.maxAbsX) inp.maxAbsX,
    clip v.y (-inp.maxAbsY) inp.maxAbsY,
    clip v.z inp.minZ inp.maxZ ⟩

/-- `ArmControl.compute_arm_goal`.  Returns `ok none` when no goal is to be
commanded this tick, `ok (some g)` with a single-waypoint goal otherwise,
and `error` when `ik_target_xyz_so3` fails (the exception propagates to the
caller).  Note that the workspace clamp and the IK call sit after both the
CARTESIAN and the JOINT branch, so they apply to both modes. -/
def compute_arm_goal (arm : Arm) (inp : ArmMobileIOInputs) :
    Except Unit (Option Goal) :=
  let cur := arm.positionCommand
  match inp.mode with
  | none => Except.ok none
  | some m =>
    if inp.active = false then Except.ok none
    else
      let fkres : Vec3 × Rot :=
        match m with
        | TrajType.CARTESIAN =>
          let r := arm.fk cur
          (r.1.add inp.cartesianDisplacement, r.2)
        | TrajType.JOINT =>
          arm.fk (listAdd cur inp.jointDisplacement)
      let clamped := applyLimits fkres.1 inp
      match arm.ik cur clamped fkres.2 with
      | Except.error e => Except.error e
      | Except.ok jt =>
        Except.ok (some { size := arm.size, waypoints := [(jt, none)] })

/-- The mutable state of an `ArmControl` instance.  `lastInputTime` is
`none` until the first `update` call that receives a truthy input (reading
it before that raises `AttributeError` in Python); `armHome` holds the home
position vector fixed at construction. -/
structure ArmControl where
  state : ArmControlState
  lastInputTime : Option ℚ
  armHome : List ℚ
deriving DecidableEq

/-- `ArmControl.running`: `self.state is not self.state.EXIT`. -/
def ArmControl.running (ac : ArmControl) : Bool :=
  decide (ac.state ≠ ArmControlState.EXIT)

/-- `ArmControl.transition_to`: a self-transition is a no-op; entering
HOMING issues a single-waypoint goal at the home position; entering TELEOP,
DISCONNECTED or EXIT only logs.  Returns the new controller state and the
commands issued. -/
def ArmControl.transition_to (ac : ArmControl) (arm : Arm) (tNow : ℚ)
    (s : ArmControlState) : ArmControl × List ArmCommand :=
  let _ := tNow
  if s = ac.state then (ac, [])
  else
    let fx : List ArmCommand :=
      match s with
      | ArmControlState.HOMING =>
        [ArmCommand.setGoal { size := arm.size, waypoints := [(ac.armHome, none)] }]
      | _ => []
    ({ ac with state := s }, fx)

/-- The gripper block of the TELEOP branch of `ArmControl.update`
(lines 161-167): read the gripper state, compare to the input's
`gripper_closed`, and issue a close or open command only on a mismatch. -/
def gripperCommands (arm : Arm) (inp : ArmMobileIOInputs) : List ArmCommand :=
  match arm.endEffector with
  | none => []
  | some gs =>
    if inp.gripperClosed = true ∧ ¬(gs = 1) then [ArmCommand.gripperClose]
    else if inp.gripperClosed = false ∧ gs = 1 then [ArmCommand.gripperOpen]
    else []

/-- `ArmControl.update`.  Returns the commands issued this tick together
with either the updated controller state and the boolean return value, or
an error when an exception escapes (IK failure inside
`compute_arm_goal`, or reading the never-assigned `last_input_time`). -/
def ArmControl.update (ac : ArmControl) (arm : Arm) (tNow : ℚ)
    (armInput : Option ArmMobileIOInputs) :
    List ArmCommand × Except Unit (ArmControl × Bool) :=
  let fx0 : List ArmCommand := [ArmCommand.armUpdate, ArmCommand.armSend]
  if ac.state = ArmControlState.EXIT then (fx0, Except.ok (ac, false))
  else
    match armInput with
    | none =>
      match ac.lastInputTime with
      | none => (fx0, Except.error ())
      | some tLast =>
        if tNow - tLast > 1 ∧ ac.state ≠ ArmControlState.DISCONNECTED then
          let r := ac.transition_to arm tNow ArmControlState.DISCONNECTED
          (fx0 ++ r.2, Except.ok (r.1, true))
        else (fx0, Except.ok (ac, true))
    | some inp =>
      let ac1 := { ac with lastInputTime := some tNow }
      match ac1.state with
      | ArmControlState.DISCONNECTED =>
        let r := ac1.transition_to arm tNow ArmControlState.TELEOP
        (fx0 ++ r.2, Except.ok (r.1, true))
      | ArmControlState.HOMING =>
        if arm.atGoal then
          let r := ac1.transition_to arm tNow ArmControlState.TELEOP
          (fx0 ++ r.2, Except.ok (r.1, true))
        else (fx0, Except.ok (ac1, true))
      | ArmControlState.TELEOP =>
        let grip := gripperCommands arm inp
        if inp.locked then
          let r := ac1.transition_to arm tNow ArmControlState.HOMING
          (fx0 ++ r.2 ++ grip, Except.ok (r.1, true))
        else
          match compute_arm_goal arm inp with
          | Except.error e => (fx0, Except.error e)
          | Except.ok goal? =>
            let fxGoal := match goal? with
              | some g => [ArmCommand.setGoal g]
              | none => []
            (fx0 ++ fxGoal ++ grip, Except.ok (ac1, true))
      | ArmControlState.STARTUP =>
        let r := ac1.transition_to arm tNow ArmControlState.HOMING
        (fx0 ++ r.2, Except.ok (r.1, true))
      | ArmControlState.EXIT => (fx0, Except.ok (ac1, true))

/-- One iteration of the `__main__` control loop (lines 310-315):
`parse_mobile_feedback`, then `update`, then `send`.  An exception raised by
either call propagates out of the loop (there is no handler), which is
modelled by the `error` result. -/
def control_loop_iter (arm : Arm) (globalM : Option MobileIOState)
    (ac : ArmControl) (inputs : ArmMobileIOInputs) (t : ℚ) :
    List ArmCommand × Except Unit (ArmControl × ArmMobileIOInputs) :=
  match inputs.parse_mobile_feedback globalM t with
  | Except.error _ => ([], Except.error ())
  | Except.ok inp =>
    match ac.update arm t (some inp) with
    | (fx, Except.error e) => (fx, Except.error e)
    | (fx, Except.ok r) =>
      (fx ++ [ArmCommand.armSend], Except.ok (r.1, inp))

/-- The `__main__` control loop run over a list of tick timestamps:
`while arm_control.running` drives iterations; an exception in any
iteration aborts the whole run (the process dies). -/
def control_loop_run (arm : Arm) (globalM : Option MobileIOState) :
    List ℚ → ArmControl → ArmMobileIOInputs →
    Except Unit (ArmControl × ArmMobileIOInputs)
  | [], ac, inputs => Except.ok (ac, inputs)
  | t :: ts, ac, inputs =>
    if ac.running = false then Except.ok (ac, inputs)
    else
      match control_loop_iter arm globalM ac inputs t with
      | (_, Except.error e) => Except.error e
      | (_, Except.ok r) => control_loop_run arm globalM ts r.1 r.2

/-- `Except.isOk` as a plain boolean, to state results about values whose
carried type has no decidable equality. -/
def isOkB {ε α : Type} : Except ε α → Bool
  | Except.ok _ => true
  | Except.error _ => false

instance {ε α : Type} [DecidableEq ε] [DecidableEq α] :
    DecidableEq (Except ε α) := fun a b =>
  match a, b with
  | Except.ok x, Except.ok y =>
    if h : x = y then isTrue (congrArg Except.ok h)
    else isFalse (fun hc => h (Except.ok.inj hc))
  | Except.error x, Except.error y =>
    if h : x = y then isTrue (congrArg Except.error h)
    else isFalse (fun hc => h (Except.error.inj hc))
  | Except.ok _, Except.error _ => isFalse (fun hc => Except.noConfusion hc)
  | Except.error _, Except.ok _ => isFalse (fun hc => Except.noConfusion hc)

theorem modeArbitrate_cart (s : ArmMobileIOInputs)
    (h : s.prevCartesianVelocity.normSq > cartesianActivityThresholdSq) :
    s.modeArbitrate.mode = some TrajType.CARTESIAN ∧
    s.modeArbitrate.cartesianDisplacement =
      s.prevCartesianVelocity.mulScalar s.dt := by
  unfold ArmMobileIOInputs.modeArbitrate
  rw [if_pos h]
  exact ⟨rfl, rfl⟩

theorem modeArbitrate_idle (s : ArmMobileIOInputs)
    (hc : s.prevCartesianVelocity.normSq ≤ cartesianActivityThresholdSq)
    (hj : listNormSq s.prevJointVelocity ≤ jointActivityThresholdSq) :
    s.modeArbitrate.mode = none ∧
    s.modeArbitrate.jointDisplacement = List.replicate s.numJoints 0 ∧
    s.modeArbitrate.cartesianDisplacement = Vec3.zero := by
  unfold ArmMobileIOInputs.modeArbitrate
  rw [if_neg (not_lt.mpr hc), if_neg (not_lt.mpr hj)]
  exact ⟨rfl, rfl, rfl⟩

theorem modeArbitrate_joint_only_if (s : ArmMobileIOInputs)
    (h : s.modeArbitrate.mode = some TrajType.JOINT) :
    s.prevCartesianVelocity.normSq ≤ cartesianActivityThresholdSq := by
  by_contra hgt
  push_neg at hgt
  have hc := (modeArbitrate_cart s hgt).1
  rw [hc] at h
  simp at h

theorem modeArbitrate_preserves (s : ArmMobileIOInputs) :
    s.modeArbitrate.prevCartesianVelocity = s.prevCartesianVelocity ∧
    s.modeArbitrate.prevJointVelocity = s.prevJointVelocity ∧
    s.modeArbitrate.dt = s.dt ∧
    s.modeArbitrate.numJoints = s.numJoints := by
  unfold ArmMobileIOInputs.modeArbitrate
  split
  · exact ⟨rfl, rfl, rfl, rfl⟩
  · split
    · exact ⟨rfl, rfl, rfl, rfl⟩
    · exact ⟨rfl, rfl, rfl, rfl⟩

theorem compute_arm_goal_mode_none (arm : Arm) (inp : ArmMobileIOInputs)
    (h : inp.mode = none) : compute_arm_goal arm inp = Except.ok none := by
  unfold compute_arm_goal
  rw [h]

/-- C1: mode arbitration is priority-ordered.  In every sample produced by
`parse_mobile_feedback`, once the (squared) Euclidean norm of the smoothed
cartesian velocity exceeds the 1e-3 threshold the mode is Cartesian and the
cartesian displacement is the smoothed cartesian velocity times `dt`,
regardless of the joint channel; Joint mode can only be selected when the
cartesian norm is at or below the threshold. -/
theorem claim_C1_mode_arbitration_priority (s : ArmMobileIOInputs)
    (gm : MobileIOState) (time : ℚ) (s' : ArmMobileIOInputs)
    (hparse : s.parse_mobile_feedback (some gm) time = Except.ok s') :
    (s'.prevCartesianVelocity.normSq > cartesianActivityThresholdSq →
      s'.mode = some TrajType.CARTESIAN ∧
      s'.cartesianDisplacement = s'.prevCartesianVelocity.mulScalar s'.dt) ∧
    (s'.mode = some TrajType.JOINT →
      s'.prevCartesianVelocity.normSq ≤ cartesianActivityThresholdSq) := by
  have hs' : s' = s.parse_with_global gm time := by
    simp only [ArmMobileIOInputs.parse_mobile_feedback, Except.ok.injEq] at hparse
    exact hparse.symm
  subst hs'
  constructor
  · intro h
    have h' : (s.parse_pre time).modeArbitrate.prevCartesianVelocity.normSq >
        cartesianActivityThresholdSq := h
    rw [(modeArbitrate_preserves _).1] at h'
    refine ⟨(modeArbitrate_cart _ h').1, ?_⟩
    show (s.parse_pre time).modeArbitrate.cartesianDisplacement =
      (s.parse_pre time).modeArbitrate.prevCartesianVelocity.mulScalar
        (s.parse_pre time).modeArbitrate.dt
    rw [(modeArbitrate_preserves _).1, (modeArbitrate_preserves _).2.2.1]
    exact (modeArbitrate_cart _ h').2
  · intro hm
    have hm' : (s.parse_pre time).modeArbitrate.mode = some TrajType.JOINT := hm
    have hle := modeArbitrate_joint_only_if _ hm'
    show (s.parse_pre time).modeArbitrate.prevCartesianVelocity.normSq ≤
      cartesianActivityThresholdSq
    rw [(modeArbitrate_preserves _).1]
    exact hle

/-- C9: when both smoothed channels are at or below their activity
thresholds, the produced sample has mode `None` and both displacement
vectors are exactly zero, and `compute_arm_goal` consequently commands no
goal for that sample. -/
theorem claim_C9_idle_sample_no_goal (s : ArmMobileIOInputs)
    (gm : MobileIOState) (time : ℚ) (s' : ArmMobileIOInputs)
    (hparse : s.parse_mobile_feedback (some gm) time = Except.ok s')
    (hc : s'.prevCartesianVelocity.normSq ≤ cartesianActivityThresholdSq)
    (hj : listNormSq s'.prevJointVelocity ≤ jointActivityThresholdSq) :
    s'.mode = none ∧
    s'.jointDisplacement = List.replicate s'.numJoints 0 ∧
    s'.cartesianDisplacement = Vec3.zero ∧
    ∀ arm : Arm, compute_arm_goal arm s' = Except.ok none := by
  have hs' : s' = s.parse_with_global gm time := by
    simp only [ArmMobileIOInputs.parse_mobile_feedback, Except.ok.injEq] at hparse
    exact hparse.symm
  subst hs'
  have hc' : (s.parse_pre time).prevCartesianVelocity.normSq ≤
      cartesianActivityThresholdSq := by
    have h0 : (s.parse_pre time).modeArbitrate.prevCartesianVelocity.normSq ≤
        cartesianActivityThresholdSq := hc
    rw [(modeArbitrate_preserves _).1] at h0
    exact h0
  have hj' : listNormSq (s.parse_pre time).prevJointVelocity ≤
      jointActivityThresholdSq := by
    have h0 : listNormSq (s.parse_pre time).modeArbitrate.prevJointVelocity ≤
        jointActivityThresholdSq := hj
    rw [(modeArbitrate_preserves _).2.1] at h0
    exact h0
  have hidle := modeArbitrate_idle (s.parse_pre time) hc' hj'
  have hmode : (s.parse_with_global gm time).mode = none := hidle.1
  refine ⟨hmode, ?_, hidle.2.2, fun arm => compute_arm_goal_mode_none arm _ hmode⟩
  show (s.parse_pre time).modeArbitrate.jointDisplacement =
    List.replicate (s.parse_pre time).modeArbitrate.numJoints 0
  rw [(modeArbitrate_preserves _).2.2.2]
  exact hidle.2.1

/-- A small concrete arm whose FK reads the first three joint coordinates as
the end-effector xyz and whose IK inverts that reading. -/
def armZero : Arm :=
  { size := 3, atGoal := false, positionCommand := [0, 0, 0],
    fk := fun p => (⟨p.getD 0 0, p.getD 1 0, p.getD 2 0⟩, []),
    ik := fun _ xyz _ => Except.ok [xyz.x, xyz.y, xyz.z],
    endEffector := none }

/-- A concrete arm whose IK always reports no solution. -/
def armIKFail : Arm :=
  { size := 3, atGoal := false, positionCommand := [0, 0, 0],
    fk := fun p => (⟨p.getD 0 0, p.getD 1 0, p.getD 2 0⟩, []),
    ik := fun _ _ _ => Except.error (),
    endEffector := none }

/-- Device snapshot: connected, nothing pressed. -/
def mioIdle : MobileIOState :=
  { updateOk := true, buttons := fun _ => false, axes := fun _ => 0 }

/-- Device snapshot: connected, button 1 held (drives joint index 2). -/
def mioJoint2 : MobileIOState :=
  { updateOk := true, buttons := fun n => n == 1, axes := fun _ => 0 }

/-- Device snapshot: connected, x-axis (axis 8) fully deflected. -/
def mioCart : MobileIOState :=
  { updateOk := true, buttons := fun _ => false, axes := fun n => if n == 8 then 1 else 0 }

/-- Device snapshot: disconnected (`update` failed) with button 1 still held
in the last cached feedback. -/
def mioStaleHeld : MobileIOState :=
  { updateOk := false, buttons := fun n => n == 1, axes := fun _ => 0 }

/-- Device snapshot: connected, button 6 (the lock button) held. -/
def mioLockHeld : MobileIOState :=
  { updateOk := true, buttons := fun n => n == 6, axes := fun _ => 0 }

/-- Global `m` snapshot with the `arm` (active) button held. -/
def gmActive : MobileIOState :=
  { updateOk := true, buttons := fun n => n == 5, axes := fun _ => 0 }

/-- A freshly constructed 3-joint `ArmMobileIOInputs` instance (the
constructor's zeroed arrays and defaults, with concrete rational values for
the scaled velocity maxima). -/
def baseInputs : ArmMobileIOInputs :=
  { mio := mioIdle, numJoints := 3, t := none, dt := 1/100,
    jointVelocityMax := 100,
    jointVelocity := [0, 0, 0], prevJointVelocity := [0, 0, 0],
    jointDisplacement := [0, 0, 0], jointDirection := 1,
    alphaJoint := 1/10, alphaCartesian := 1/10,
    cartesianVelocityMax := 18,
    cartesianVelocity := Vec3.zero, prevCartesianVelocity := Vec3.zero,
    cartesianDisplacement := Vec3.zero,
    mode := none, locked := false, active := false, gripperClosed := false,
    maxAbsX := 1/2, maxAbsY := 1/2, minZ := 0, maxZ := 1/2 }

def sC1 : ArmMobileIOInputs := { baseInputs with mio := mioCart }

/-- Witness for C1 at a concrete sample with the x-axis fully deflected:
the cartesian channel is above threshold and the produced sample is in
Cartesian mode with displacement smoothed-velocity times dt. -/
theorem claim_C1_witness :
    (sC1.parse_with_global gmActive 1).prevCartesianVelocity.normSq >
      cartesianActivityThresholdSq ∧
    (sC1.parse_with_global gmActive 1).mode = some TrajType.CARTESIAN ∧
    (sC1.parse_with_global gmActive 1).cartesianDisplacement =
      (sC1.parse_with_global gmActive 1).prevCartesianVelocity.mulScalar
        (sC1.parse_with_global gmActive 1).dt := by
  have h := (claim_C1_mode_arbitration_priority sC1 gmActive 1 _ rfl).1
    (by with_unfolding_all decide)
  exact ⟨by with_unfolding_all decide, h.1, h.2⟩

def sC9 : ArmMobileIOInputs := baseInputs

/-- Witness for C9 at a concrete sample with no buttons and centred axes:
the produced sample is idle and commands no goal. -/
theorem claim_C9_witness :
    (sC9.parse_with_global gmActive 1).mode = none ∧
    (sC9.parse_with_global gmActive 1).jointDisplacement =
      List.replicate (sC9.parse_with_global gmActive 1).numJoints 0 ∧
    (sC9.parse_with_global gmActive 1).cartesianDisplacement = Vec3.zero ∧
    compute_arm_goal armZero (sC9.parse_with_global gmActive 1) =
      Except.ok none := by
  have h := claim_C9_idle_sample_no_goal sC9 gmActive 1 _ rfl
    (by with_unfolding_all decide) (by with_unfolding_all decide)
  exact ⟨h.1, h.2.1, h.2.2.1, h.2.2.2 armZero⟩

def sC4 : ArmMobileIOInputs := { baseInputs with mio := mioStaleHeld }

/-- C4: the claim (and the intent of the `clear_input` call at line 86) is
that a failed device read yields a sample whose raw velocities are all zero.
The code does call `clear_input` when `mio.update` fails, but lines 88-95
then unconditionally overwrite every entry it zeroed from the device's
cached (stale) button and axis states.  At this concrete failing input -
`update` fails while button 1 is still held in the cached feedback - a
sample is still produced (no error, as claimed), yet its
`joint_velocity[2]` is the full-scale 100, not 0. -/
theorem claim_C4_failed_read_keeps_stale_velocity :
    sC4.parse_mobile_feedback (some mioIdle) 1 =
      Except.ok (sC4.parse_with_global mioIdle 1) ∧
    sC4.mio.updateOk = false ∧
    (sC4.parse_with_global mioIdle 1).jointVelocity = [0, 0, 100] ∧
    (sC4.parse_with_global mioIdle 1).jointVelocity ≠
      List.replicate 3 (0 : ℚ) := by
  refine ⟨rfl, rfl, ?_, ?_⟩
  · with_unfolding_all decide
  · with_unfolding_all decide

def sC10 : ArmMobileIOInputs := { baseInputs with mio := mioLockHeld }

/-- C10: `parse_mobile_feedback` reads the `locked`, `active` and
`gripper_closed` buttons from the module-global `m` (modelled as the
explicit ambient device `gm`), never from the instance's own `self.mio`;
when the instance was built around a different device, the three fields
reflect the global device's buttons, and when no global `m` is bound the
call fails (Python's `NameError`) instead of producing a sample. -/
theorem claim_C10_global_device_reads (s : ArmMobileIOInputs)
    (gm : MobileIOState) (time : ℚ) :
    s.parse_mobile_feedback (some gm) time =
      Except.ok (s.parse_with_global gm time) ∧
    (s.parse_with_global gm time).locked = gm.buttons 6 ∧
    (s.parse_with_global gm time).active = gm.buttons 5 ∧
    (s.parse_with_global gm time).gripperClosed = gm.buttons 8 ∧
    (s.mio.buttons 6 ≠ gm.buttons 6 →
      (s.parse_with_global gm time).locked ≠ s.mio.buttons 6) ∧
    isOkB (s.parse_mobile_feedback none time) = false := by
  refine ⟨rfl, rfl, rfl, rfl, ?_, rfl⟩
  intro hne
  show gm.buttons 6 ≠ s.mio.buttons 6
  exact fun he => hne he.symm

/-- Witness for C10: an instance whose own device holds the lock button
while the global `m` does not; the produced sample's `locked` disagrees with
the instance device's button. -/
theorem claim_C10_witness :
    (sC10.parse_with_global gmActive 1).locked ≠ sC10.mio.buttons 6 :=
  (claim_C10_global_device_reads sC10 gmActive 1).2.2.2.2.1 (by decide)

def inpC3 : ArmMobileIOInputs :=
  { baseInputs with mode := some TrajType.JOINT, active := true,
                    jointDisplacement := [1, 0, 0] }

/-- C3 counterexample: in Joint mode with current commanded position
`[0,0,0]` and joint displacement `[1,0,0]`, under an FK that reads the first
three joints as xyz and an IK that inverts it, `compute_arm_goal` emits the
waypoint `[1/2, 0, 0]` - the joint-space candidate was pushed through FK,
clamped by `max_abs_x = 1/2`, and re-solved by IK - not the claimed
`current + displacement = [1,0,0]`.  The workspace limits therefore do
apply to a Joint-mode target. -/
theorem claim_C3_counterexample :
    compute_arm_goal armZero inpC3 =
      Except.ok (some { size := 3, waypoints := [([1/2, 0, 0], none)] }) ∧
    listAdd armZero.positionCommand inpC3.jointDisplacement = [1, 0, 0] ∧
    (([([(1:ℚ)/2, 0, 0], (none : Option ℚ))] :
        List (List ℚ × Option ℚ)) ≠ [([1, 0, 0], none)]) := by
  refine ⟨?_, ?_, ?_⟩ <;> with_unfolding_all decide

/-- C3 (amended): in Joint mode with an active input, the goal computed by
`compute_arm_goal` is the IK solution (seeded at the current commanded
position) for the workspace-clamped FK pose of current position + joint
displacement, wrapped as a single waypoint with no explicit duration; the
workspace limits are applied in Joint mode as well, not only in Cartesian
mode. -/
theorem claim_C3_joint_mode_goal (arm : Arm) (inp : ArmMobileIOInputs)
    (hmode : inp.mode = some TrajType.JOINT) (hact : inp.active = true) :
    compute_arm_goal arm inp =
      Except.map
        (fun jt => some { size := arm.size, waypoints := [(jt, none)] })
        (arm.ik arm.positionCommand
          (applyLimits
            (arm.fk (listAdd arm.positionCommand inp.jointDisplacement)).1 inp)
          (arm.fk (listAdd arm.positionCommand inp.jointDisplacement)).2) := by
  unfold compute_arm_goal
  rw [hmode, hact]
  simp only [Bool.true_eq_false, if_false]
  cases h : arm.ik arm.positionCommand
      (applyLimits
        (arm.fk (listAdd arm.positionCommand inp.jointDisplacement)).1 inp)
      (arm.fk (listAdd arm.positionCommand inp.jointDisplacement)).2 with
  | error e => simp [h, Except.map]
  | ok jt => simp [h, Except.map]

/-- Witness for the amended C3 at the concrete Joint-mode input above. -/
theorem claim_C3_witness :
    compute_arm_goal armZero inpC3 =
      Except.map
        (fun jt => some { size := armZero.size, waypoints := [(jt, none)] })
        (armZero.ik armZero.positionCommand
          (applyLimits
            (armZero.fk
              (listAdd armZero.positionCommand inpC3.jointDisplacement)).1 inpC3)
          (armZero.fk
            (listAdd armZero.positionCommand inpC3.jointDisplacement)).2) :=
  claim_C3_joint_mode_goal armZero inpC3 rfl rfl

def acTeleop : ArmControl :=
  { state := ArmControlState.TELEOP, lastInputTime := some 0,
    armHome := [0, 0, 0] }

def sC2 : ArmMobileIOInputs := { baseInputs with mio := mioJoint2 }

/-- C2 counterexample: with an IK oracle that reports no solution, the
control loop run over two ticks aborts with the propagated error at the
first tick - `update` returns the error instead of a successful tick, and
the unguarded `while` loop of `__main__` therefore dies rather than
continuing and retrying on the next tick. -/
theorem claim_C2_counterexample :
    isOkB (control_loop_run armIKFail (some gmActive) [1, 2] acTeleop sC2) =
      false ∧
    (acTeleop.update armIKFail 1
        (some (sC2.parse_with_global gmActive 1))).2 = Except.error () := by
  constructor
  · with_unfolding_all rfl
  · with_unfolding_all decide

/-- C2 (amended): when `compute_arm_goal` fails (no IK solution) on a
Teleop tick, the error is raised, no `set_goal` happens that tick (the only
commands issued are the unconditional `arm.update`/`arm.send` refresh), and
the error propagates out of `update` - the control loop has no handler, so
the condition is fatal to the process rather than being retried next
tick. -/
theorem claim_C2_ik_failure_propagates (ac : ArmControl) (arm : Arm)
    (tNow : ℚ) (inp : ArmMobileIOInputs)
    (hT : ac.state = ArmControlState.TELEOP)
    (hlock : inp.locked = false)
    (hik : compute_arm_goal arm inp = Except.error ()) :
    (ac.update arm tNow (some inp)).1 =
      [ArmCommand.armUpdate, ArmCommand.armSend] ∧
    (ac.update arm tNow (some inp)).2 = Except.error () := by
  unfold ArmControl.update
  simp [hT, hlock, hik]

def inpC2 : ArmMobileIOInputs :=
  { baseInputs with mode := some TrajType.JOINT, active := true }

/-- Witness for the amended C2 at a concrete Teleop state and failing IK. -/
theorem claim_C2_witness :
    (acTeleop.update armIKFail 1 (some inpC2)).1 =
      [ArmCommand.armUpdate, ArmCommand.armSend] ∧
    (acTeleop.update armIKFail 1 (some inpC2)).2 = Except.error () :=
  claim_C2_ik_failure_propagates acTeleop armIKFail 1 inpC2 rfl rfl
    (by with_unfolding_all decide)

/-- C5: while in Teleop, an `update` tick with no input sample whose
wall-clock distance from the last valid input exceeds the 1.0-second
timeout transitions the state to Disconnected (still a successful tick);
and from Disconnected, the first `update` tick that receives a valid input
sample transitions back to Teleop within that same tick. -/
theorem claim_C5_disconnect_and_recover (ac : ArmControl) (arm : Arm)
    (tNow tLast : ℚ) (inp : ArmMobileIOInputs)
    (hT : ac.state = ArmControlState.TELEOP)
    (hlast : ac.lastInputTime = some tLast)
    (htimeout : tNow - tLast > 1) :
    (ac.update arm tNow none).2 =
      Except.ok ({ ac with state := ArmControlState.DISCONNECTED }, true) ∧
    ∀ ac2 : ArmControl, ac2.state = ArmControlState.DISCONNECTED →
      (ac2.update arm tNow (some inp)).2 =
        Except.ok ({ ac2 with state := ArmControlState.TELEOP,
                              lastInputTime := some tNow }, true) := by
  constructor
  · unfold ArmControl.update ArmControl.transition_to
    simp [hT, hlast, htimeout]
  · intro ac2 hD
    unfold ArmControl.update ArmControl.transition_to
    simp [hD]

def acDisc : ArmControl :=
  { state := ArmControlState.DISCONNECTED, lastInputTime := some 0,
    armHome := [0, 0, 0] }

/-- Witness for C5: the spec scenario, input lost at t=0 while in Teleop,
tick at t=1.5 > 1.0 transitions to Disconnected; a Disconnected controller
receiving a valid sample at t=1.5 returns to Teleop in that tick. -/
theorem claim_C5_witness :
    ((3:ℚ)/2) - 0 > 1 ∧
    (acTeleop.update armZero (3/2) none).2 =
      Except.ok ({ acTeleop with state := ArmControlState.DISCONNECTED },
        true) ∧
    (acDisc.update armZero (3/2) (some baseInputs)).2 =
      Except.ok ({ acDisc with state := ArmControlState.TELEOP,
                               lastInputTime := some (3/2) }, true) := by
  have h := claim_C5_disconnect_and_recover acTeleop armZero (3/2) 0
    baseInputs rfl rfl (by with_unfolding_all decide)
  exact ⟨by with_unfolding_all decide, h.1, h.2 acDisc rfl⟩

def acExit : ArmControl :=
  { state := ArmControlState.EXIT, lastInputTime := none,
    armHome := [0, 0, 0] }

/-- C6 counterexample: `transition_to` does not guard the EXIT state - a
direct call on a controller whose state is EXIT moves it to TELEOP, so it is
not true that no call to `transition_to` changes the state away from
EXIT. -/
theorem claim_C6_counterexample :
    acExit.state = ArmControlState.EXIT ∧
    (acExit.transition_to armZero 0 ArmControlState.TELEOP).1.state =
      ArmControlState.TELEOP ∧
    ArmControlState.TELEOP ≠ ArmControlState.EXIT := by
  with_unfolding_all decide

/-- C6 (amended): once the state is EXIT, `update` never changes it (it
returns `false` immediately after the unconditional refresh commands), and
the `running` predicate is false exactly when the state is EXIT; but
`transition_to` itself does not guard EXIT, so only update-driven evolution
keeps EXIT terminal. -/
theorem claim_C6_exit_terminal_for_update (ac : ArmControl) (arm : Arm)
    (tNow : ℚ) (inp? : Option ArmMobileIOInputs)
    (hE : ac.state = ArmControlState.EXIT) :
    (ac.update arm tNow inp?).2 = Except.ok (ac, false) ∧
    (ac.update arm tNow inp?).1 =
      [ArmCommand.armUpdate, ArmCommand.armSend] ∧
    ∀ ac2 : ArmControl,
      ac2.running = true ↔ ac2.state ≠ ArmControlState.EXIT := by
  refine ⟨?_, ?_, ?_⟩
  · unfold ArmControl.update
    simp [hE]
  · unfold ArmControl.update
    simp [hE]
  · intro ac2
    simp [ArmControl.running]

/-- Witness for the amended C6 at a concrete EXIT controller. -/
theorem claim_C6_witness :
    (acExit.update armZero 0 none).2 = Except.ok (acExit, false) ∧
    (acExit.running = true ↔ acExit.state ≠ ArmControlState.EXIT) := by
  have h := claim_C6_exit_terminal_for_update acExit armZero 0 none rfl
  exact ⟨h.1, h.2.2 acExit⟩

/-- C8 counterexample: at a concrete transition from TELEOP into EXIT, the
machine enters EXIT but the commands issued by `transition_to` do not
include `cancelGoal` (the EXIT branch only prints); no pending goal is
cancelled. -/
theorem claim_C8_counterexample :
    (acTeleop.transition_to armZero 0 ArmControlState.EXIT).1.state =
      ArmControlState.EXIT ∧
    ArmCommand.cancelGoal ∉
      (acTeleop.transition_to armZero 0 ArmControlState.EXIT).2 := by
  with_unfolding_all decide

/-- C8 (amended): the transition into EXIT issues no arm commands at all -
in particular it does not cancel a pending goal - while still entering the
EXIT state. -/
theorem claim_C8_exit_transition_issues_nothing (ac : ArmControl)
    (arm : Arm) (tNow : ℚ) :
    (ac.transition_to arm tNow ArmControlState.EXIT).2 = [] ∧
    (ac.state ≠ ArmControlState.EXIT →
      (ac.transition_to arm tNow ArmControlState.EXIT).1.state =
        ArmControlState.EXIT) := by
  unfold ArmControl.transition_to
  constructor
  · split
    · rfl
    · rfl
  · intro hne
    split
    next heq => exact absurd heq.symm hne
    next => rfl

/-- Witness for the amended C8 at a concrete TELEOP controller. -/
theorem claim_C8_witness :
    (acTeleop.transition_to armZero 0 ArmControlState.EXIT).2 = [] ∧
    (acTeleop.transition_to armZero 0 ArmControlState.EXIT).1.state =
      ArmControlState.EXIT := by
  have h := claim_C8_exit_transition_issues_nothing acTeleop armZero 0
  exact ⟨h.1, h.2 (by decide)⟩

theorem gripperCommands_spec (arm : Arm) (inp : ArmMobileIOInputs) (gs : ℚ)
    (hg : arm.endEffector = some gs) :
    (ArmCommand.gripperClose ∈ gripperCommands arm inp →
      inp.gripperClosed = true ∧ ¬(gs = 1)) ∧
    (ArmCommand.gripperOpen ∈ gripperCommands arm inp →
      inp.gripperClosed = false ∧ gs = 1) ∧
    ((inp.gripperClosed = true ↔ gs = 1) → gripperCommands arm inp = []) := by
  unfold gripperCommands
  rw [hg]
  by_cases h1 : gs = 1 <;> cases hgc : inp.gripperClosed <;>
    simp [h1, hgc]

theorem update_gripper_sub (ac : ArmControl) (arm : Arm) (tNow : ℚ)
    (inp : ArmMobileIOInputs) (hT : ac.state = ArmControlState.TELEOP)
    (c : ArmCommand)
    (hc : c = ArmCommand.gripperClose ∨ c = ArmCommand.gripperOpen) :
    c ∈ (ac.update arm tNow (some inp)).1 → c ∈ gripperCommands arm inp := by
  intro hmem
  unfold ArmControl.update ArmControl.transition_to at hmem
  simp only [hT] at hmem
  rcases hc with rfl | rfl <;>
  · split at hmem
    · simp at hmem
    · split at hmem
      · simp at hmem
        exact hmem
      · split at hmem
        · simp at hmem
        · split at hmem
          · simp at hmem
            exact hmem
          · simp at hmem
            exact hmem

/-- C7: gripper commanding is edge-triggered against the gripper's own
state: on any Teleop tick a close command is issued only when the input's
`gripper_closed` is true while the gripper state is not 1.0 (open), an open
command only when `gripper_closed` is false while the gripper state is 1.0
(closed); and on any tick where `gripper_closed` agrees with the gripper
state, no gripper command is issued at all.  The per-tick condition depends
only on that tick's input and gripper state, so this covers every tick of
any sequence of Teleop ticks. -/
theorem claim_C7_gripper_edge_triggered (ac : ArmControl) (arm : Arm)
    (tNow : ℚ) (inp : ArmMobileIOInputs) (gs : ℚ)
    (hT : ac.state = ArmControlState.TELEOP)
    (hg : arm.endEffector = some gs) :
    (ArmCommand.gripperClose ∈ (ac.update arm tNow (some inp)).1 →
      inp.gripperClosed = true ∧ ¬(gs = 1)) ∧
    (ArmCommand.gripperOpen ∈ (ac.update arm tNow (some inp)).1 →
      inp.gripperClosed = false ∧ gs = 1) ∧
    ((inp.gripperClosed = true ↔ gs = 1) →
      ArmCommand.gripperClose ∉ (ac.update arm tNow (some inp)).1 ∧
      ArmCommand.gripperOpen ∉ (ac.update arm tNow (some inp)).1) := by
  have hspec := gripperCommands_spec arm inp gs hg
  refine ⟨?_, ?_, ?_⟩
  · intro hmem
    exact hspec.1 (update_gripper_sub ac arm tNow inp hT _ (Or.inl rfl) hmem)
  · intro hmem
    exact hspec.2.1 (update_gripper_sub ac arm tNow inp hT _ (Or.inr rfl) hmem)
  · intro hmatch
    have hempty := hspec.2.2 hmatch
    constructor
    · intro hmem
      have h2 := update_gripper_sub ac arm tNow inp hT _ (Or.inl rfl) hmem
      rw [hempty] at h2
      simp at h2
    · intro hmem
      have h2 := update_gripper_sub ac arm tNow inp hT _ (Or.inr rfl) hmem
      rw [hempty] at h2
      simp at h2

def armGripperOpen : Arm := { armZero with endEffector := some 0 }

def inpGrip : ArmMobileIOInputs := { baseInputs with gripperClosed := true }

/-- Witness for C7: a Teleop tick with `gripper_closed` held true while the
gripper state is 0.0 (open) does issue a close command, and the theorem
recovers exactly that edge condition. -/
theorem claim_C7_witness :
    ArmCommand.gripperClose ∈
      (acTeleop.update armGripperOpen 1 (some inpGrip)).1 ∧
    inpGrip.gripperClosed = true ∧ ¬((0:ℚ) = 1) :=
  ⟨by with_unfolding_all decide,
   (claim_C7_gripper_edge_triggered acTeleop armGripperOpen 1 inpGrip 0
      rfl rfl).1 (by with_unfolding_all decide)⟩
